import Mathlib

/-!
Shallow embedding of the Kleinanzeige-Creator media-to-text pipeline
(`src/main.py` and `src/transcribe_audio.py`).

External collaborators (OpenAI transcription/chat calls, langdetect's
`detect`, the frame/audio extractors) are opaque calls; each is modelled as
a `CallResult` value or function supplied by a `Backends` record: `ok` is a
normal return, `fail` is a raised exception at the call site.  Python
exceptions crossing function boundaries are modelled with `Except`;
filesystem writes are modelled as fields of an explicit state record.
-/

/-- Outcome of one opaque external call: a normal return or a raised
exception carrying a message. -/
inductive CallResult (α : Type) where
  | ok (val : α)
  | fail (msg : String)
deriving DecidableEq, Repr

/-- The object returned by the Whisper transcription call in
`src/transcribe_audio.py`: `text?` is `some t` when the response object has
a `text` attribute (the `hasattr(transcription, "text")` check), `none`
otherwise. -/
structure WhisperResponse where
  text? : Option String
deriving DecidableEq, Repr

/-- The value `transcribe` (src/transcribe_audio.py, lines 11-37) returns: a
Python string `transcription.text`, or the literal empty list `[]` that both
the missing-`text`-attribute branch and the `except` branch return. -/
inductive TranscribeResult where
  | text (s : String)
  | emptyList
deriving DecidableEq, Repr

/-- `transcribe` from `src/transcribe_audio.py`: if the audio file is
missing, the raised `FileNotFoundError` is caught by the function's own
`except` and `[]` is returned; if the Whisper call raises, `[]` is returned;
if the response has a `text` attribute its value is returned, else `[]`. -/
def transcribe (audio_file_exists : Bool)
    (whisper_call : CallResult WhisperResponse) : TranscribeResult :=
  if audio_file_exists then
    match whisper_call with
    | .ok resp =>
      match resp.text? with
      | some t => .text t
      | none => .emptyList
    | .fail _ => .emptyList
  else
    .emptyList

/-- The opaque collaborators one `process_video` run consumes, together with
the one piece of ambient filesystem state `transcribe` reads (whether the
extracted audio file exists). -/
structure Backends where
  extract_frames_call : CallResult Unit
  extract_audio_call : CallResult Unit
  audio_file_exists : Bool
  whisper_call : CallResult WhisperResponse
  detect_call : String → CallResult String
  translate_call : String → String → CallResult String
  describe_call : String → CallResult String

/-- `VideoProcessor.detect_language` (src/main.py, lines 151-163): calls
langdetect's `detect` inside `try` with a bare `except` returning `None`.
Called on the empty-list fallback value, `detect` raises (caught, `None`);
on a string it returns the detector's code or `None` if the detector
raised. -/
def detect_language (detect_call : String → CallResult String) :
    TranscribeResult → Option String
  | .text s =>
    match detect_call s with
    | .ok code => some code
    | .fail _ => none
  | .emptyList => none

/-- `VideoProcessor.translate_text` (src/main.py, lines 165-191): returns the
chat completion's content, and on any exception logs and returns the input
text unchanged. -/
def translate_text (translate_call : String → String → CallResult String)
    (text target_lang : String) : String :=
  match translate_call text target_lang with
  | .ok out => out
  | .fail _ => text

/-- A Python exception escaping `process_video`, by raising site:
`extraction` from the frame/audio extractor calls, `generation` from the
chat call inside `generate_description` (re-raised there), `typeError` from
`f.write(transcript)` in `_save_transcripts` when `transcribe`'s empty-list
fallback reaches it. -/
inductive PyErr where
  | extraction (msg : String)
  | generation (msg : String)
  | typeError
deriving DecidableEq, Repr

/-- `VideoProcessor.generate_description` (src/main.py, lines 36-81):
produces the English draft via the chat call (re-raising its exception on
failure), then, `if target_lang != "en"`, runs the draft through
`translate_text`.  The `Nat` component counts the `translate_text`
invocations made internally (0 or 1). -/
def generate_description (describe_call : String → CallResult String)
    (translate_call : String → String → CallResult String)
    (transcript target_lang : String) : Except PyErr (String × Nat) :=
  match describe_call transcript with
  | .fail m => .error (.generation m)
  | .ok draft =>
    if target_lang != "en" then
      .ok (translate_text translate_call draft target_lang, 1)
    else
      .ok (draft, 0)

/-- Observable state of one `process_video` run: contents of the transcript
and description files (`none` = not written this run), and how many times
each stage's external call was made. -/
structure PState where
  fs_transcript : Option String := none
  fs_description : Option String := none
  transcribe_calls : Nat := 0
  translate_calls_transcript : Nat := 0
  translate_calls_description : Nat := 0
  describe_calls : Nat := 0
deriving DecidableEq, Repr

/-- The transcription stage of `process_video` (src/main.py, lines 105-116):
`transcribe`, then `detect_language` on its result, then — under Python's
`if detected_lang and detected_lang != target_lang` (truthy: not `None` and
not the empty string) — `translate_text`.  Returns the transcript value
passed on to `_save_transcripts` and the number of `translate_text` calls
made on the transcript. -/
def final_transcript (B : Backends) (target_lang : String) :
    TranscribeResult × Nat :=
  let tr := transcribe B.audio_file_exists B.whisper_call
  match tr, detect_language B.detect_call tr with
  | .text s, some d =>
    if d ≠ "" ∧ d ≠ target_lang then
      (.text (translate_text B.translate_call s target_lang), 1)
    else
      (.text s, 0)
  | v, _ => (v, 0)

/-- `VideoProcessor.process_video` (src/main.py, lines 83-131).  Stages in
source order: `extract_frames`, `extract_audio` (an exception from either
propagates — the outer `except` re-raises), `transcribe`,
`detect_language` + conditional `translate_text`, `_save_transcripts`
(`f.write` raises `TypeError` on the empty-list fallback; on a string it
writes the file), `generate_description` (exception re-raised),
`_save_description`, then the `(transcript, description)` pair is
returned. -/
def process_video (B : Backends) (target_lang : String) :
    PState × Except PyErr (String × String) :=
  match B.extract_frames_call with
  | .fail m => ({}, .error (.extraction m))
  | .ok _ =>
    match B.extract_audio_call with
    | .fail m => ({}, .error (.extraction m))
    | .ok _ =>
      match final_transcript B target_lang with
      | (.emptyList, tc) =>
        ({ transcribe_calls := 1, translate_calls_transcript := tc },
         .error .typeError)
      | (.text s, tc) =>
        let st1 : PState :=
          { fs_transcript := some s, transcribe_calls := 1,
            translate_calls_transcript := tc }
        match generate_description B.describe_call B.translate_call s target_lang with
        | .error e => ({ st1 with describe_calls := 1 }, .error e)
        | .ok (description, dtc) =>
          ({ st1 with describe_calls := 1,
                      translate_calls_description := dtc,
                      fs_description := some description },
           .ok (s, description))

/-- `VideoApp.__init__` (src/main.py, lines 200-206): the supported-language
mapping from human-readable name to two-letter code. -/
def target_languages : List (String × String) :=
  [("English", "en"), ("German", "de"), ("French", "fr"),
   ("Spanish", "es"), ("Italian", "it")]

/-- The option list the `st.selectbox` in `VideoApp.run` offers:
`list(self.target_languages.keys())`. -/
def ui_language_names : List String := target_languages.map Prod.fst

/-- `VideoApp.run` (src/main.py, lines 248-259): the selectbox returns the
selected option itself — a key of `target_languages` — and that value is
passed directly as the `target_lang` argument of `process_video`. -/
def run_selected_target_lang (i : Fin ui_language_names.length) : String :=
  ui_language_names.get i

/-- `VideoApp.run`, processing branch: `process_video` invoked with the
selectbox's selected value. -/
def app_run (B : Backends) (i : Fin ui_language_names.length) :
    PState × Except PyErr (String × String) :=
  process_video B (run_selected_target_lang i)

/-- Modelled from the spec: the external Language Detector (the langdetect
library, not part of src/) returns an ISO-like language code (§4.3); this is
the langdetect profile set, the codes `detect` can return. -/
def langdetect_codes : List String :=
  ["af", "ar", "bg", "bn", "ca", "cs", "cy", "da", "de", "el", "en", "es",
   "et", "fa", "fi", "fr", "gu", "he", "hi", "hr", "hu", "id", "it", "ja",
   "kn", "ko", "lt", "lv", "mk", "ml", "mr", "ne", "nl", "no", "pa", "pl",
   "pt", "ro", "ru", "sk", "sl", "so", "sq", "sv", "sw", "ta", "te", "th",
   "tl", "tr", "uk", "ur", "vi", "zh-cn", "zh-tw"]

/-- Module-level credential check of `src/transcribe_audio.py` (lines 4-9),
run at import time: `os.getenv` yields `none` when the variable is absent,
and `if not api_key` treats both `None` and the empty string as missing,
raising `ValueError`. -/
def module_init (openai_api_key_env : Option String) : Except String String :=
  match openai_api_key_env with
  | none =>
    .error "API key is missing. Set OPENAI_API_KEY as an environment variable."
  | some k =>
    if k = "" then
      .error "API key is missing. Set OPENAI_API_KEY as an environment variable."
    else
      .ok k

/-- Result of starting the application: `src/main.py` imports
`transcribe_audio`, so a failing credential check aborts at import time and
no pipeline stage ever runs; otherwise the app runs the pipeline. -/
inductive AppOutcome where
  | startupFailure (msg : String)
  | ran (result : PState × Except PyErr (String × String))
deriving Repr

/-- Process startup followed by one run: the import-time credential check of
`transcribe_audio` gates everything `main.py` does. -/
def app_main (openai_api_key_env : Option String) (B : Backends)
    (i : Fin ui_language_names.length) : AppOutcome :=
  match module_init openai_api_key_env with
  | .error m => .startupFailure m
  | .ok _ => .ran (app_run B i)

/-- Number of external API calls (transcription, translation, description
generation) an app outcome performed. -/
def api_calls : AppOutcome → Nat
  | .startupFailure _ => 0
  | .ran (st, _) =>
    st.transcribe_calls + st.translate_calls_transcript +
      st.translate_calls_description + st.describe_calls

/-- Classifier for the exception taxonomy the spec allows across the
pipeline boundary. -/
def is_extraction_or_generation : PyErr → Bool
  | .extraction _ => true
  | .generation _ => true
  | .typeError => false

/-! ## Concrete runs used as evidence -/

/-- Concrete backends for the transcription-degradation path: extraction
succeeds, the audio file exists, the Whisper call raises. -/
def degraded_backends : Backends where
  extract_frames_call := .ok ()
  extract_audio_call := .ok ()
  audio_file_exists := true
  whisper_call := .fail "APIConnectionError"
  detect_call := fun _ => .fail "LangDetectException"
  translate_call := fun t _ => .ok t
  describe_call := fun _ => .ok "- a product"

/-- Concrete backends for a normal run over English spoken content: every
external call succeeds, the detector reports "en", the translator tags its
output with the target language. -/
def english_content_backends : Backends where
  extract_frames_call := .ok ()
  extract_audio_call := .ok ()
  audio_file_exists := true
  whisper_call := .ok ⟨some "hello world"⟩
  detect_call := fun _ => .ok "en"
  translate_call := fun _ target => .ok ("[" ++ target ++ "] text")
  describe_call := fun _ => .ok "- a bike"

/-- Concrete backends where everything up to transcription succeeds and the
description-generation chat call raises. -/
def gen_fail_backends : Backends where
  extract_frames_call := .ok ()
  extract_audio_call := .ok ()
  audio_file_exists := true
  whisper_call := .ok ⟨some "hello"⟩
  detect_call := fun _ => .ok "en"
  translate_call := fun t _ => .ok t
  describe_call := fun _ => .fail "RateLimitError"

/-- Concrete backends where the Whisper call succeeds but transcribes an
empty text (silent speech track), detection raises on the empty string, and
the description call still returns a non-empty bullet list. -/
def empty_transcript_backends : Backends where
  extract_frames_call := .ok ()
  extract_audio_call := .ok ()
  audio_file_exists := true
  whisper_call := .ok ⟨some ""⟩
  detect_call := fun _ => .fail "LangDetectException"
  translate_call := fun t _ => .ok t
  describe_call := fun _ => .ok "- Product: bicycle"

/-! ## Helper lemmas -/

/-- None of the human-readable names the selectbox offers is a langdetect
code, a code of the target-language mapping, or the string "en". -/
theorem ui_names_are_not_codes :
    ∀ n ∈ ui_language_names,
      n ∉ langdetect_codes
      ∧ n ∉ target_languages.map Prod.snd
      ∧ n ≠ "en" := by
  decide

/-- Every langdetect code is a non-empty string (so Python's truthiness
check on a detected code never fails). -/
theorem langdetect_codes_nonempty : ∀ c ∈ langdetect_codes, c ≠ "" := by
  decide

/-- If `detect_language` reports a code, the input was a string and the
underlying detector returned exactly that code. -/
theorem detect_language_some_inversion
    (detect_call : String → CallResult String) (v : TranscribeResult)
    (d : String) (hd : detect_language detect_call v = some d) :
    ∃ s, v = .text s ∧ detect_call s = .ok d := by
  cases v with
  | emptyList => cases hd
  | text s =>
    refine ⟨s, rfl, ?_⟩
    have hd' : (match detect_call s with
        | CallResult.ok code => some code
        | CallResult.fail _ => none) = some d := hd
    split at hd'
    · cases hd'
      assumption
    · cases hd'

/-- After both extraction calls succeed and the transcription stage produced
the string `s`, `process_video` is the description stage applied to `s`. -/
theorem process_video_eq_of_extraction_ok (B : Backends) (target_lang : String)
    (hf : B.extract_frames_call = .ok ()) (ha : B.extract_audio_call = .ok ())
    (s : String) (tc : Nat)
    (hft : final_transcript B target_lang = (.text s, tc)) :
    process_video B target_lang =
      (match generate_description B.describe_call B.translate_call s target_lang with
       | .error e =>
         ({ fs_transcript := some s, transcribe_calls := 1,
            translate_calls_transcript := tc, describe_calls := 1 },
          .error e)
       | .ok (description, dtc) =>
         ({ fs_transcript := some s, fs_description := some description,
            transcribe_calls := 1, translate_calls_transcript := tc,
            translate_calls_description := dtc, describe_calls := 1 },
          .ok (s, description))) := by
  unfold process_video
  rw [hf, ha, hft]

/-- After both extraction calls succeed and the transcription stage produced
the empty-list fallback, `process_video` stops with the `TypeError` raised
by `_save_transcripts`. -/
theorem process_video_eq_of_empty_list (B : Backends) (target_lang : String)
    (hf : B.extract_frames_call = .ok ()) (ha : B.extract_audio_call = .ok ())
    (tc : Nat)
    (hft : final_transcript B target_lang = (.emptyList, tc)) :
    process_video B target_lang =
      ({ transcribe_calls := 1, translate_calls_transcript := tc },
       .error .typeError) := by
  unfold process_video
  rw [hf, ha, hft]

/-- The transcript-stage Translator call count is exactly the one computed
by `final_transcript`, whatever the later stages do. -/
theorem process_video_translate_calls_transcript (B : Backends)
    (target_lang : String)
    (hf : B.extract_frames_call = .ok ()) (ha : B.extract_audio_call = .ok ()) :
    (process_video B target_lang).1.translate_calls_transcript =
      (final_transcript B target_lang).2 := by
  unfold process_video
  rw [hf, ha]
  cases hft : final_transcript B target_lang with
  | mk tr tc =>
    cases tr with
    | emptyList => rfl
    | text s =>
      cases hg : generate_description B.describe_call B.translate_call s target_lang with
      | error e => simp [hg]
      | ok p =>
        cases p with
        | mk description dtc => simp [hg]

/-- Under the assumption that the detector only ever returns langdetect
codes, the transcript-stage Translator count of `final_transcript` is 1
exactly when detection returned a code differing from the target, and 0
otherwise. -/
theorem final_transcript_snd_eq_one_iff (B : Backends) (target_lang : String)
    (hdet : ∀ s code, B.detect_call s = .ok code → code ∈ langdetect_codes) :
    (final_transcript B target_lang).2 = 1 ↔
      (∃ d, detect_language B.detect_call
          (transcribe B.audio_file_exists B.whisper_call) = some d
        ∧ d ≠ target_lang) := by
  unfold final_transcript
  cases htr : transcribe B.audio_file_exists B.whisper_call with
  | emptyList => simp [detect_language]
  | text s =>
    cases hd : detect_language B.detect_call (.text s) with
    | none => simp [hd]
    | some d =>
      obtain ⟨s0, hs0, hcall⟩ :=
        detect_language_some_inversion B.detect_call (.text s) d hd
      have hcode : d ∈ langdetect_codes := hdet s0 d hcall
      have hne : d ≠ "" := langdetect_codes_nonempty d hcode
      by_cases heq : d = target_lang
      · subst heq
        simp [hd]
      · simp [hd, hne, heq]

/-- If the transcription stage produced a string, the transcript file holds
exactly that string from `_save_transcripts` on, whatever the description
stage does. -/
theorem process_video_fs_transcript (B : Backends) (target_lang : String)
    (hf : B.extract_frames_call = .ok ()) (ha : B.extract_audio_call = .ok ())
    (s : String) (tc : Nat)
    (hft : final_transcript B target_lang = (.text s, tc)) :
    (process_video B target_lang).1.fs_transcript = some s := by
  rw [process_video_eq_of_extraction_ok B target_lang hf ha s tc hft]
  cases hg : generate_description B.describe_call B.translate_call s target_lang with
  | error e => simp [hg]
  | ok p =>
    cases p with
    | mk description dtc => simp [hg]

/-- When the target language is not "en" and `generate_description`
succeeds, it made exactly one internal Translator call. -/
theorem generate_description_ok_translator_count
    (describe_call : String → CallResult String)
    (translate_call : String → String → CallResult String)
    (transcript target_lang : String) (hne : target_lang ≠ "en")
    (description : String) (n : Nat)
    (hok : generate_description describe_call translate_call transcript
      target_lang = .ok (description, n)) :
    n = 1 := by
  unfold generate_description at hok
  cases hc : describe_call transcript with
  | fail m =>
    rw [hc] at hok
    cases hok
  | ok draft =>
    rw [hc] at hok
    have hok' : (if (target_lang != "en") = true
        then (Except.ok (translate_text translate_call draft target_lang, 1) :
          Except PyErr (String × Nat))
        else Except.ok (draft, 0)) = Except.ok (description, n) := hok
    rw [if_pos (by simpa using hne)] at hok'
    cases hok'
    rfl

/-- C2: refuted by the code — when the transcription call fails (transport
failure, missing file, or a response without a `text` field), `transcribe`
catches the exception (so it never raises past its boundary) but returns the
empty list `[]`, not the empty string. -/
theorem transcribe_failure_yields_empty_list_not_empty_string :
    transcribe true (.fail "APIConnectionError") = .emptyList
    ∧ transcribe false (.ok ⟨some "hello"⟩) = .emptyList
    ∧ transcribe true (.ok ⟨none⟩) = .emptyList
    ∧ TranscribeResult.emptyList ≠ TranscribeResult.text "" :=
  ⟨rfl, rfl, rfl, by decide⟩

/-- C1: refuted by the code — on the transcription-degradation path the
empty-list fallback of `transcribe` flows into `_save_transcripts`, whose
`f.write` raises a `TypeError`, which is neither an extraction nor a
generation failure; it escapes `process_video` and no transcript is
persisted. -/
theorem process_video_degraded_path_raises_type_error :
    (process_video degraded_backends "English").2 = .error .typeError
    ∧ (process_video degraded_backends "English").1.fs_transcript = none
    ∧ (process_video degraded_backends "English").1.fs_description = none
    ∧ is_extraction_or_generation .typeError = false :=
  ⟨rfl, rfl, rfl, rfl⟩

/-- C7: for every input text and target language, `translate_text` returns
the model's output when the translation call succeeds and returns its input
text unchanged when the call fails for any reason; its return type is a
plain string, so it always returns some text and never raises. -/
theorem translate_text_never_raises_and_falls_back
    (translate_call : String → String → CallResult String)
    (text target_lang : String) :
    (∀ out, translate_call text target_lang = .ok out →
      translate_text translate_call text target_lang = out)
    ∧ (∀ m, translate_call text target_lang = .fail m →
      translate_text translate_call text target_lang = text) := by
  constructor
  · intro out h
    simp [translate_text, h]
  · intro m h
    simp [translate_text, h]

/-- Witness for C7 at concrete inputs: a succeeding and a failing
translation call. -/
theorem translate_text_never_raises_and_falls_back_witness :
    translate_text (fun _ _ => .ok "Hallo") "Hello" "de" = "Hallo"
    ∧ translate_text (fun _ _ => .fail "APIError") "Hello" "de" = "Hello" :=
  ⟨(translate_text_never_raises_and_falls_back
      (fun _ _ => .ok "Hallo") "Hello" "de").1 "Hallo" rfl,
   (translate_text_never_raises_and_falls_back
      (fun _ _ => .fail "APIError") "Hello" "de").2 "APIError" rfl⟩

/-- C8: `detect_language` is a total function into `Option String` (so it
never raises past its boundary, even on the non-string empty-list input): it
returns the detector's code on successful detection and `none` whenever the
underlying detector raises for any reason, including on the empty-list
fallback value. -/
theorem detect_language_total_none_on_failure
    (detect_call : String → CallResult String) (v : TranscribeResult) :
    (∀ s code, v = .text s → detect_call s = .ok code →
      detect_language detect_call v = some code)
    ∧ (∀ s m, v = .text s → detect_call s = .fail m →
      detect_language detect_call v = none)
    ∧ detect_language detect_call .emptyList = none := by
  refine ⟨?_, ?_, rfl⟩
  · intro s code hv h
    subst hv
    simp [detect_language, h]
  · intro s m hv h
    subst hv
    simp [detect_language, h]

/-- Witness for C8 at concrete inputs: a succeeding detector, a raising
detector, and the non-string empty-list input. -/
theorem detect_language_total_none_on_failure_witness :
    detect_language (fun _ => .ok "en") (.text "hello") = some "en"
    ∧ detect_language (fun _ => .fail "LangDetectException") (.text "??") = none
    ∧ detect_language (fun _ => .ok "en") .emptyList = none :=
  ⟨(detect_language_total_none_on_failure (fun _ => .ok "en")
      (.text "hello")).1 "hello" "en" rfl rfl,
   (detect_language_total_none_on_failure (fun _ => .fail "LangDetectException")
      (.text "??")).2.1 "??" "LangDetectException" rfl rfl,
   (detect_language_total_none_on_failure (fun _ => .ok "en") .emptyList).2.2⟩

/-- C5: for every transcript and target language code, when the generation
call yields an English draft, `generate_description` returns that draft
untranslated with zero internal Translator invocations if the target code is
"en", and otherwise returns the draft passed through `translate_text` with
exactly one internal Translator invocation. -/
theorem generate_description_english_first_then_translate
    (describe_call : String → CallResult String)
    (translate_call : String → String → CallResult String)
    (transcript target_lang draft : String)
    (h : describe_call transcript = .ok draft) :
    generate_description describe_call translate_call transcript target_lang =
      (if target_lang = "en" then .ok (draft, 0)
       else .ok (translate_text translate_call draft target_lang, 1)) := by
  by_cases he : target_lang = "en" <;>
    simp [generate_description, h, he]

/-- Witness for C5 at concrete inputs: target "en" keeps the English draft
with no Translator call; target "de" translates it with one call. -/
theorem generate_description_english_first_then_translate_witness :
    generate_description (fun _ => .ok "- a bike") (fun _ _ => .ok "- ein Rad")
      "t" "en" = .ok ("- a bike", 0)
    ∧ generate_description (fun _ => .ok "- a bike") (fun _ _ => .ok "- ein Rad")
      "t" "de" = .ok ("- ein Rad", 1) :=
  ⟨generate_description_english_first_then_translate
     (fun _ => .ok "- a bike") (fun _ _ => .ok "- ein Rad") "t" "en" "- a bike" rfl,
   generate_description_english_first_then_translate
     (fun _ => .ok "- a bike") (fun _ _ => .ok "- ein Rad") "t" "de" "- a bike" rfl⟩

/-- C10: if the API credential environment variable is absent (or empty,
which Python's truthiness also treats as missing), the application fails at
module import time with the `ValueError` message of `transcribe_audio`, and
zero transcription, translation, or description-generation calls are made:
the failure is not deferred to a per-call one. -/
theorem missing_api_key_fails_at_startup (B : Backends)
    (i : Fin ui_language_names.length) :
    app_main none B i = .startupFailure
      "API key is missing. Set OPENAI_API_KEY as an environment variable."
    ∧ app_main (some "") B i = .startupFailure
      "API key is missing. Set OPENAI_API_KEY as an environment variable."
    ∧ api_calls (app_main none B i) = 0
    ∧ api_calls (app_main (some "") B i) = 0 :=
  ⟨rfl, rfl, rfl, rfl⟩

/-- If the whole run returned a pair and the target language is not "en",
the description stage made exactly one Translator call. -/
theorem process_video_ok_description_translations
    (B : Backends) (target_lang : String)
    (hf : B.extract_frames_call = .ok ()) (ha : B.extract_audio_call = .ok ())
    (hne : target_lang ≠ "en") (p : String × String)
    (hp : (process_video B target_lang).2 = .ok p) :
    (process_video B target_lang).1.translate_calls_description = 1 := by
  cases hft : final_transcript B target_lang with
  | mk tr tc =>
    cases tr with
    | emptyList =>
      rw [process_video_eq_of_empty_list B target_lang hf ha tc hft] at hp
      cases hp
    | text s =>
      rw [process_video_eq_of_extraction_ok B target_lang hf ha s tc hft] at hp ⊢
      cases hg : generate_description B.describe_call B.translate_call s target_lang with
      | error e =>
        simp [hg] at hp
      | ok q =>
        cases q with
        | mk description dtc =>
          simp [hg]
          exact generate_description_ok_translator_count B.describe_call
            B.translate_call s target_lang hne description dtc hg

/-- C6: if the description-generation call fails, the error is propagated to
the caller of `process_video` as a generation failure (not swallowed), the
transcript file written before the description stage keeps exactly its
saved content, and no description file is written (no rollback or
cleanup). -/
theorem generation_failure_propagates_and_transcript_persists
    (B : Backends) (target_lang s m : String) (tc : Nat)
    (hf : B.extract_frames_call = .ok ()) (ha : B.extract_audio_call = .ok ())
    (hft : final_transcript B target_lang = (.text s, tc))
    (hgen : B.describe_call s = .fail m) :
    (process_video B target_lang).2 = .error (.generation m)
    ∧ (process_video B target_lang).1.fs_transcript = some s
    ∧ (process_video B target_lang).1.fs_description = none := by
  rw [process_video_eq_of_extraction_ok B target_lang hf ha s tc hft]
  have hg : generate_description B.describe_call B.translate_call s target_lang
      = .error (.generation m) := by
    unfold generate_description
    rw [hgen]
  simp [hg]

/-- Witness for C6 at concrete inputs: transcription yields "hello",
detection matches the target "en", the description call raises; the run
fails with the generation error while the transcript file stays. -/
theorem generation_failure_propagates_and_transcript_persists_witness :
    (process_video gen_fail_backends "en").2 = .error (.generation "RateLimitError")
    ∧ (process_video gen_fail_backends "en").1.fs_transcript = some "hello"
    ∧ (process_video gen_fail_backends "en").1.fs_description = none :=
  generation_failure_propagates_and_transcript_persists gen_fail_backends "en"
    "hello" "RateLimitError" 0 rfl rfl rfl rfl

/-- C4 counterexample: on the degraded run (failing Whisper call) with
target "en", language detection yields null and the translation step is
skipped, but the transcript is not persisted unchanged — `_save_transcripts`
raises `TypeError` on the empty-list fallback and no transcript file is
written, against the claim's "the transcript is persisted unchanged". -/
theorem transcript_not_persisted_on_null_detection :
    detect_language degraded_backends.detect_call
      (transcribe degraded_backends.audio_file_exists
        degraded_backends.whisper_call) = none
    ∧ (process_video degraded_backends "en").1.translate_calls_transcript = 0
    ∧ (process_video degraded_backends "en").1.fs_transcript = none
    ∧ (process_video degraded_backends "en").2 = .error .typeError :=
  ⟨rfl, rfl, rfl, rfl⟩

/-- C4 amended: with both extraction calls succeeded and a detector that
only returns langdetect codes, the Translator runs on the transcript iff
detection returned a code differing from `target_lang`; when detection
yields null or the detected code equals the target, no transcript
translation happens and — provided the transcribed value was a string — the
transcript is persisted unchanged (on the empty-list fallback the save step
raises `TypeError` instead, see C1/C2). -/
theorem transcript_translation_iff_detected_differs
    (B : Backends) (target_lang : String)
    (hf : B.extract_frames_call = .ok ()) (ha : B.extract_audio_call = .ok ())
    (hdet : ∀ s code, B.detect_call s = .ok code → code ∈ langdetect_codes) :
    ((process_video B target_lang).1.translate_calls_transcript = 1 ↔
      (∃ d, detect_language B.detect_call
          (transcribe B.audio_file_exists B.whisper_call) = some d
        ∧ d ≠ target_lang))
    ∧ (∀ s, transcribe B.audio_file_exists B.whisper_call = .text s →
        (∀ d, detect_language B.detect_call (.text s) = some d →
          d = target_lang) →
        (process_video B target_lang).1.translate_calls_transcript = 0
        ∧ (process_video B target_lang).1.fs_transcript = some s) := by
  constructor
  · rw [process_video_translate_calls_transcript B target_lang hf ha]
    exact final_transcript_snd_eq_one_iff B target_lang hdet
  · intro s htr hskip
    have hft : final_transcript B target_lang = (.text s, 0) := by
      have hstep : final_transcript B target_lang =
          (match TranscribeResult.text s,
              detect_language B.detect_call (.text s) with
           | TranscribeResult.text s, some d =>
             if d ≠ "" ∧ d ≠ target_lang then
               (TranscribeResult.text
                 (translate_text B.translate_call s target_lang), 1)
             else
               (TranscribeResult.text s, 0)
           | v, _ => (v, 0)) := by
        unfold final_transcript
        rw [htr]
      rw [hstep]
      cases hd : detect_language B.detect_call (.text s) with
      | none => rfl
      | some d =>
        have hdt := hskip d hd
        subst hdt
        simp
    refine ⟨?_, process_video_fs_transcript B target_lang hf ha s 0 hft⟩
    rw [process_video_translate_calls_transcript B target_lang hf ha, hft]

/-- Witness for C4 at concrete inputs: English content with target "German"
translates the transcript once; the same content with target "en" skips
translation and persists the raw transcript. -/
theorem transcript_translation_iff_detected_differs_witness :
    (process_video english_content_backends "German").1.translate_calls_transcript = 1
    ∧ (process_video english_content_backends "en").1.translate_calls_transcript = 0
    ∧ (process_video english_content_backends "en").1.fs_transcript = some "hello world" := by
  have hdet : ∀ s code, english_content_backends.detect_call s = .ok code →
      code ∈ langdetect_codes := fun s code hc => by
    cases hc
    decide
  have h1 := transcript_translation_iff_detected_differs
    english_content_backends "German" rfl rfl hdet
  have h2 := transcript_translation_iff_detected_differs
    english_content_backends "en" rfl rfl hdet
  have hskip : ∀ d, detect_language english_content_backends.detect_call
      (.text "hello world") = some d → d = "en" := fun d hd => by
    have h' : (some "en" : Option String) = some d := hd
    exact (Option.some.inj h').symm
  refine ⟨h1.1.mpr ⟨"en", rfl, by decide⟩, ?_, ?_⟩
  · exact (h2.2 "hello world" rfl hskip).1
  · exact (h2.2 "hello world" rfl hskip).2

/-- C9 counterexample: a run whose Whisper call transcribes empty text —
description synthesis is still invoked (no guard) and the persisted
description is the generation backend's non-empty bullet list while the
persisted transcript is empty. -/
theorem description_nonempty_despite_empty_transcript :
    (process_video empty_transcript_backends "English").1.fs_transcript = some ""
    ∧ (process_video empty_transcript_backends "English").1.describe_calls = 1
    ∧ (process_video empty_transcript_backends "English").1.fs_description
        = some "- Product: bicycle"
    ∧ ("- Product: bicycle" : String) ≠ "" :=
  ⟨rfl, rfl, rfl, by decide⟩

/-- C9 amended: `process_video` invokes description synthesis
unconditionally on whatever transcript string was saved — there is no
empty-transcript guard — and the persisted description is exactly the
generation backend's (possibly translated) output, which may be non-empty
even when the transcript is empty. -/
theorem description_synthesis_unguarded
    (B : Backends) (target_lang s : String) (tc : Nat)
    (hf : B.extract_frames_call = .ok ()) (ha : B.extract_audio_call = .ok ())
    (hft : final_transcript B target_lang = (.text s, tc)) :
    (process_video B target_lang).1.describe_calls = 1
    ∧ (∀ draft, B.describe_call s = .ok draft →
        (process_video B target_lang).1.fs_description =
          some (if target_lang = "en" then draft
                else translate_text B.translate_call draft target_lang)) := by
  rw [process_video_eq_of_extraction_ok B target_lang hf ha s tc hft]
  constructor
  · cases hg : generate_description B.describe_call B.translate_call s target_lang with
    | error e => simp [hg]
    | ok q =>
      cases q with
      | mk description dtc => simp [hg]
  · intro draft hdraft
    have hg : generate_description B.describe_call B.translate_call s target_lang =
        (if target_lang = "en" then Except.ok (draft, 0)
         else Except.ok (translate_text B.translate_call draft target_lang, 1)) := by
      unfold generate_description
      rw [hdraft]
      by_cases he : target_lang = "en" <;> simp [he]
    by_cases he : target_lang = "en"
    · subst he
      simp [hg]
    · simp [hg, he]

/-- Witness for C9 amended at concrete inputs: the empty transcript is
still fed to the description stage, and the persisted description is the
backend's output. -/
theorem description_synthesis_unguarded_witness :
    (process_video empty_transcript_backends "German").1.describe_calls = 1
    ∧ (process_video empty_transcript_backends "German").1.fs_description =
        some (if ("German" : String) = "en" then "- Product: bicycle"
              else translate_text empty_transcript_backends.translate_call
                "- Product: bicycle" "German") := by
  have h := description_synthesis_unguarded empty_transcript_backends
    "German" "" 0 rfl rfl rfl
  exact ⟨h.1, h.2 "- Product: bicycle" rfl⟩

/-- C3: `VideoApp.run` passes the selected human-readable language name — a
key of `target_languages`, never one of its two-letter codes — as the
`target_lang` of `process_video`; hence whenever detection succeeds, the
detected langdetect code differs from the target and the Translator runs on
the transcript, and the target differs from "en" so a successful run also
runs the Translator on the description, even for content already in the
selected language. -/
theorem run_passes_language_name_so_translator_always_runs
    (B : Backends) (i : Fin ui_language_names.length) (d : String)
    (hf : B.extract_frames_call = .ok ()) (ha : B.extract_audio_call = .ok ())
    (hdet : ∀ s code, B.detect_call s = .ok code → code ∈ langdetect_codes)
    (hd : detect_language B.detect_call
      (transcribe B.audio_file_exists B.whisper_call) = some d) :
    run_selected_target_lang i ∈ ui_language_names
    ∧ run_selected_target_lang i ∉ target_languages.map Prod.snd
    ∧ d ≠ run_selected_target_lang i
    ∧ (app_run B i).1.translate_calls_transcript = 1
    ∧ run_selected_target_lang i ≠ "en"
    ∧ (∀ p, (app_run B i).2 = .ok p →
        (app_run B i).1.translate_calls_description = 1) := by
  have hmem : run_selected_target_lang i ∈ ui_language_names := by
    unfold run_selected_target_lang
    exact List.get_mem _ i.1 i.2
  obtain ⟨hncode, hnsnd, hnen⟩ := ui_names_are_not_codes _ hmem
  obtain ⟨s0, _hs0, hcall⟩ :=
    detect_language_some_inversion B.detect_call _ d hd
  have hdcode : d ∈ langdetect_codes := hdet s0 d hcall
  have hdne : d ≠ run_selected_target_lang i := by
    intro h
    rw [h] at hdcode
    exact hncode hdcode
  refine ⟨hmem, hnsnd, hdne, ?_, hnen, ?_⟩
  · unfold app_run
    rw [process_video_translate_calls_transcript B _ hf ha]
    exact (final_transcript_snd_eq_one_iff B _ hdet).mpr ⟨d, hd, hdne⟩
  · intro p hp
    exact process_video_ok_description_translations B _ hf ha hnen p hp

/-- Witness for C3 at concrete inputs: English spoken content, selected
language "German" (index 1 of the selectbox options): the name itself is the
target, both the transcript and the description go through the
Translator. -/
theorem run_passes_language_name_so_translator_always_runs_witness :
    run_selected_target_lang ⟨1, by decide⟩ ∈ ui_language_names
    ∧ run_selected_target_lang ⟨1, by decide⟩ ∉ target_languages.map Prod.snd
    ∧ ("en" : String) ≠ run_selected_target_lang ⟨1, by decide⟩
    ∧ (app_run english_content_backends ⟨1, by decide⟩).1.translate_calls_transcript = 1
    ∧ run_selected_target_lang ⟨1, by decide⟩ ≠ "en"
    ∧ (app_run english_content_backends ⟨1, by decide⟩).1.translate_calls_description = 1 := by
  have h := run_passes_language_name_so_translator_always_runs
    english_content_backends ⟨1, by decide⟩ "en" rfl rfl
    (fun s code hc => by cases hc; decide) rfl
  exact ⟨h.1, h.2.1, h.2.2.1, h.2.2.2.1, h.2.2.2.2.1,
    h.2.2.2.2.2 ("[German] text", "[German] text") rfl⟩
